import Mathlib

/-
Verification of the nanobot Claude Code provider:
  - src/nanobot/providers/claude_code_auth.py   (credential lifecycle)
  - src/nanobot/providers/claude_code_provider.py (protocol translation, orchestration)

The embedding models Python values decoded by json.loads as a small `Json`
inductive (Python `None` is `Json.null`), Python dicts as association lists
in insertion order, and the external effects (the refresh HTTP POST, store
writes, the messages-endpoint POSTs, the keychain re-read) as explicit
oracle parameters and result fields.
-/

namespace Nanobot

/-- A JSON value, as produced by Python json.loads.  Python None is `null`. -/
inductive Json where
  | null
  | bool (b : Bool)
  | num (n : Int)
  | str (s : String)
  | arr (elems : List Json)
  | obj (fields : List (String × Json))

/-- A Python dict holding JSON values, in insertion order. -/
abbrev Dict := List (String × Json)

/-- Python `d[k]` / `d.get(k)` lookup: first binding of the key. -/
def dictGet : Dict → String → Option Json
  | [], _ => none
  | (k, v) :: rest, key => if k = key then some v else dictGet rest key

/-- Python `k in d`. -/
def dictHasKey : Dict → String → Bool
  | [], _ => false
  | (k, _) :: rest, key => k = key || dictHasKey rest key

/-- Python `d[k] = v`: replace the existing binding in place, else append. -/
def dictSet (d : Dict) (key : String) (v : Json) : Dict :=
  if dictHasKey d key then
    d.map (fun p => if p.1 = key then (key, v) else p)
  else d ++ [(key, v)]

/-- Python `d.get(k)`: `None` when the key is absent. -/
def pyGet (d : Dict) (key : String) : Json :=
  (dictGet d key).getD Json.null

/-- Python `d.get(k, default)`. -/
def pyGetD (d : Dict) (key : String) (dflt : Json) : Json :=
  (dictGet d key).getD dflt

/-- Python truthiness of a decoded JSON value. -/
def pyTruthy : Json → Bool
  | Json.null => false
  | Json.bool b => b
  | Json.num n => n != 0
  | Json.str s => s != ""
  | Json.arr elems => !elems.isEmpty
  | Json.obj fields => !fields.isEmpty

/-- Python `str.split()` with no argument: split on whitespace runs,
dropping empty pieces. -/
def pySplitWs (s : String) : List String :=
  (s.split Char.isWhitespace).filter (fun t => t != "")

/-- Python `s[:n]` on a string: the first `n` characters. -/
def pyTruncate (s : String) (n : Nat) : String :=
  String.mk (s.data.take n)

/- ----------------------------------------------------------------
   claude_code_auth.py
   ---------------------------------------------------------------- -/

/-- Buffer time before expiration to trigger refresh (5 minutes in ms),
from claude_code_auth.EXPIRY_BUFFER_MS. -/
def EXPIRY_BUFFER_MS : Int := 300000

/-- `_is_token_expired(expires_at)`: absent means expired; otherwise
compare `now + buffer >= expires_at`.  `now` stands for
`int(time.time() * 1000)`. -/
def isTokenExpired (now : Int) (expiresAt : Option Int) : Bool :=
  match expiresAt with
  | none => true
  | some e => decide (now + EXPIRY_BUFFER_MS ≥ e)

/-- Reading `oauth.get("expiresAt")` as the `int | None` that
`_is_token_expired` expects.  JSON null (Python None) means absent;
a Python bool would be accepted by the comparison as 0/1; any other
type would raise a TypeError in the comparison (`error`). -/
def getExpiresAt (oauth : Dict) : Except Unit (Option Int) :=
  match pyGet oauth "expiresAt" with
  | Json.null => Except.ok none
  | Json.num e => Except.ok (some e)
  | Json.bool b => Except.ok (some (if b then 1 else 0))
  | _ => Except.error ()

/-- `new_token_data.get("expires_in", 3600)` followed by the arithmetic
`expires_in * 1000`: numeric values work (bool as 0/1), anything else
raises. -/
def expiresInVal (ntd : Dict) : Except Unit Int :=
  match pyGetD ntd "expires_in" (Json.num 3600) with
  | Json.num e => Except.ok e
  | Json.bool b => Except.ok (if b then 1 else 0)
  | _ => Except.error ()

/-- Outcome of the refresh HTTP POST issued by `_refresh_token_with_httpx`:
either a transport-level exception, or a response with a status code and
the result of `response.json()` (`none` when the body is unparsable, in
which case the surrounding `try` turns it into a `None` return). -/
inductive HttpResult where
  | failure
  | resp (status : Nat) (jsonBody : Option Json)

/-- `_refresh_token_with_httpx`: `None` on transport failure or non-200;
otherwise the parsed JSON body (an unparsable body raises inside the
`try`, yielding `None`). -/
def refreshTokenWithHttpx (outcome : HttpResult) : Option Json :=
  match outcome with
  | HttpResult.failure => none
  | HttpResult.resp status jsonBody =>
    if status ≠ 200 then none else jsonBody

/-- Result of `_extract_token`: the value returned (Json.null models the
Python `return None`), whether `_refresh_token` was invoked (i.e. a
refresh HTTP POST was attempted), and the list of documents written back
to the credential store (keychain or file). -/
structure ExtractResult where
  token : Json
  refreshAttempted : Bool
  writes : List Dict

/-- `_extract_token(data)`: extract the access token from the credential
document, refreshing if needed.  `now` stands for the current epoch
milliseconds, `outcome` for the result of the refresh HTTP POST (consumed
only on the refresh path).  `Except.error` models an escaping Python
exception (caught by the callers, which then return None). -/
def extractToken (data : Dict) (now : Int) (outcome : HttpResult) :
    Except Unit ExtractResult :=
  match pyGetD data "claudeAiOauth" (Json.obj []) with
  | Json.obj oauth =>
    let access_token := pyGet oauth "accessToken"
    let refresh_token := pyGet oauth "refreshToken"
    match getExpiresAt oauth with
    | Except.error e => Except.error e
    | Except.ok expires_at =>
      if isTokenExpired now expires_at then
        if !pyTruthy refresh_token then
          Except.ok ⟨Json.null, false, []⟩
        else
          let ntdOpt := refreshTokenWithHttpx outcome
          let ntdTruthy := match ntdOpt with
            | some j => pyTruthy j
            | none => false
          if ntdTruthy then
            match ntdOpt with
            | some (Json.obj ntd) =>
              let new_access_token := pyGet ntd "access_token"
              let new_refresh_token := pyGetD ntd "refresh_token" refresh_token
              match expiresInVal ntd with
              | Except.error e => Except.error e
              | Except.ok expires_in =>
                let new_expires_at := now + expires_in * 1000
                let oauth1 := dictSet oauth "accessToken" new_access_token
                let oauth2 := dictSet oauth1 "refreshToken" new_refresh_token
                let oauth3 := dictSet oauth2 "expiresAt" (Json.num new_expires_at)
                let scopeRes : Except Unit Dict :=
                  if dictHasKey ntd "scope" then
                    match pyGet ntd "scope" with
                    | Json.str s =>
                      Except.ok (dictSet oauth3 "scopes"
                        (Json.arr ((pySplitWs s).map Json.str)))
                    | _ => Except.error ()
                  else Except.ok oauth3
                match scopeRes with
                | Except.error e => Except.error e
                | Except.ok oauth4 =>
                  let data1 := dictSet data "claudeAiOauth" (Json.obj oauth4)
                  if pyTruthy new_access_token then
                    Except.ok ⟨new_access_token, true, [data1]⟩
                  else
                    Except.ok ⟨Json.null, true, [data1]⟩
            | _ => Except.error ()
          else
            Except.ok ⟨Json.null, true, []⟩
      else
        if pyTruthy access_token then
          Except.ok ⟨access_token, false, []⟩
        else
          Except.ok ⟨Json.null, false, []⟩
  | _ => Except.error ()

/- ----------------------------------------------------------------
   claude_code_provider.py
   ---------------------------------------------------------------- -/

/-- The constant CLAUDE_CODE_SYSTEM_PREFIX: the vendor-required
identification string that must stay a separate first system block. -/
def claudeCodeSystemPrefixText : String :=
  "You are Claude Code, Anthropic's official CLI for Claude."

/-- The forward allow-list name map _TOOL_NAME_TO_API, with pass-through
for names outside the map (`_TOOL_NAME_TO_API.get(name, name)`). -/
def toolNameToApi (name : String) : String :=
  if name = "read_file" then "ReadFile" else name

/-- The backward allow-list name map _TOOL_NAME_FROM_API, with
pass-through (`_TOOL_NAME_FROM_API.get(api_name, api_name)`). -/
def toolNameFromApi (name : String) : String :=
  if name = "ReadFile" then "read_file" else name

/-- The `function` sub-dict of an OpenAI-style tool call:
`tc["function"]["name"]` and `tc["function"]["arguments"]`. -/
structure ToolFunctionCall where
  name : String
  arguments : Json

/-- An entry of an assistant message's `tool_calls` list. -/
structure ToolCall where
  id : String
  function : ToolFunctionCall

/-- A generic OpenAI-style chat message dict.  `role` is the string under
`msg["role"]`; `content` is always treated as present (possibly null);
`tool_call_id` models `msg.get("tool_call_id", "")`; the absent or falsy
`msg.get("tool_calls")` is the empty list. -/
structure Message where
  role : String
  content : Json
  tool_call_id : Option String := none
  tool_calls : List ToolCall := []

/-- A content block of an outgoing wire message. -/
inductive ContentBlock where
  | text (text : Json)
  | toolUse (id : String) (name : String) (input : Json)
  | toolResult (tool_use_id : String) (content : Json)

/-- The `content` field of a wire message: either a list of typed blocks
or a passed-through raw value. -/
inductive WireContent where
  | blocks (blocks : List ContentBlock)
  | raw (content : Json)

/-- A wire message: `role` plus content. -/
structure WireMessage where
  role : String
  content : WireContent

/-- `_convert_assistant_msg`: text block (when content is truthy), then a
`tool_use` block per tool call.  String arguments are parsed as JSON via
the standard-library parser `jsonLoads` (an external collaborator,
abstracted as a parameter); on parse failure they are wrapped as
`("raw", original)`.  With no blocks at all the generic content is passed
through (`content_blocks or msg.get("content", "")`). -/
def convertAssistantMsg (jsonLoads : String → Option Json) (msg : Message) :
    WireMessage :=
  let textBlocks : List ContentBlock :=
    if pyTruthy msg.content then [ContentBlock.text msg.content] else []
  let toolUseBlocks : List ContentBlock :=
    msg.tool_calls.map (fun tc =>
      let args : Json :=
        match tc.function.arguments with
        | Json.str s =>
          match jsonLoads s with
          | some parsed => parsed
          | none => Json.obj [("raw", Json.str s)]
        | other => other
      ContentBlock.toolUse tc.id (toolNameToApi tc.function.name) args)
  let content_blocks := textBlocks ++ toolUseBlocks
  { role := "assistant",
    content :=
      if content_blocks.isEmpty then WireContent.raw msg.content
      else WireContent.blocks content_blocks }

/-- One entry of the wire `system` array, standing for the dict with the
"type": "text" tag and this text. -/
structure SystemBlock where
  text : String
deriving DecidableEq

/-- A converted wire tool definition. -/
structure WireTool where
  name : String
  description : String
  input_schema : Json

/-- An OpenAI-style tool definition; `tool.get("function", tool)` resolves
to this function object, with optional description and parameters. -/
structure ToolFunctionDef where
  name : String
  description : Option String := none
  parameters : Option Json := none

/-- `_convert_tools`: rename through the allow-list, default the
description to the empty string and the input schema to the empty
object. -/
def convertTools (tools : List ToolFunctionDef) : List WireTool :=
  tools.map (fun func =>
    { name := toolNameToApi func.name,
      description := func.description.getD "",
      input_schema := func.parameters.getD (Json.obj []) })

/-- The message loop of `_build_body`: walk the messages once,
accumulating the system-part strings and the converted wire messages. -/
def buildMessagesLoop (jsonLoads : String → Option Json) :
    List Message → List String × List WireMessage
  | [] => ([], [])
  | msg :: rest =>
    let acc := buildMessagesLoop jsonLoads rest
    if msg.role = "system" then
      match msg.content with
      | Json.str s => (s :: acc.1, acc.2)
      | _ => acc
    else if msg.role = "tool" then
      (acc.1,
        { role := "user",
          content := WireContent.blocks
            [ContentBlock.toolResult (msg.tool_call_id.getD "") msg.content] }
        :: acc.2)
    else if msg.role = "assistant" then
      (acc.1, convertAssistantMsg jsonLoads msg :: acc.2)
    else
      (acc.1, { role := "user", content := WireContent.raw msg.content } :: acc.2)

/-- The wire request body built by `_build_body`. -/
structure WireRequest where
  model : String
  max_tokens : Int
  temperature : Json
  system : List SystemBlock
  messages : List WireMessage
  tools : Option (List WireTool)

/-- `_build_body`: system parts start with the fixed vendor text, then the
loop results; the `tools` key is present only when the tools argument is
truthy. -/
def buildBody (jsonLoads : String → Option Json) (messages : List Message)
    (tools : Option (List ToolFunctionDef)) (model : String)
    (max_tokens : Int) (temperature : Json) : WireRequest :=
  let acc := buildMessagesLoop jsonLoads messages
  let system_parts := claudeCodeSystemPrefixText :: acc.1
  { model := model,
    max_tokens := max_tokens,
    temperature := temperature,
    system := system_parts.map SystemBlock.mk,
    messages := acc.2,
    tools :=
      match tools with
      | some ts => if ts.isEmpty then none else some (convertTools ts)
      | none => none }

/-- A content block of the vendor response, as consumed by
`_parse_response`; blocks of other types are skipped by the if/elif. -/
inductive RespBlock where
  | text (text : String)
  | toolUse (id : String) (name : String) (input : Option Json)
  | other (type : String)

/-- The vendor `usage` sub-dict. -/
structure RespUsage where
  input_tokens : Option Int := none
  output_tokens : Option Int := none

/-- The vendor response fields read by `_parse_response`:
`data.get("content", [])`, `data.get("stop_reason", "end_turn")`, and the
optional `usage`. -/
structure WireResponse where
  content : List RespBlock := []
  stop_reason : Option String := none
  usage : Option RespUsage := none

/-- A generic tool-call request (nanobot's ToolCallRequest). -/
structure ToolCallRequest where
  id : String
  name : String
  arguments : Json

/-- The computed usage dict of an LLMResponse (absent vendor usage is
modelled as `none`, the empty dict). -/
structure UsageOut where
  prompt_tokens : Int
  completion_tokens : Int
  total_tokens : Int

/-- nanobot's generic LLMResponse (fields per the Generic Chat Response
data model; the dataclass itself lives in nanobot.providers.base). -/
structure LLMResponse where
  content : Option String := none
  tool_calls : List ToolCallRequest := []
  finish_reason : String := "stop"
  usage : Option UsageOut := none

/-- The stop-reason dictionary lookup
`finish_map.get(stop_reason, "stop")`. -/
def finishReasonMap (stop_reason : String) : String :=
  if stop_reason = "end_turn" then "stop"
  else if stop_reason = "tool_use" then "tool_calls"
  else if stop_reason = "max_tokens" then "length"
  else "stop"

/-- `_parse_response`: collect text blocks and tool_use blocks in order,
join texts with newlines (no text yields None), map tool names back, map
the stop reason, and compute the usage counts. -/
def parseResponse (data : WireResponse) : LLMResponse :=
  let content_text : List String := data.content.filterMap (fun b =>
    match b with
    | RespBlock.text t => some t
    | _ => none)
  let tool_calls : List ToolCallRequest := data.content.filterMap (fun b =>
    match b with
    | RespBlock.toolUse id name input =>
      some { id := id,
             name := toolNameFromApi name,
             arguments := input.getD (Json.obj []) }
    | _ => none)
  let stop_reason := data.stop_reason.getD "end_turn"
  let usage := data.usage.map (fun u =>
    { prompt_tokens := u.input_tokens.getD 0,
      completion_tokens := u.output_tokens.getD 0,
      total_tokens := u.input_tokens.getD 0 + u.output_tokens.getD 0 })
  { content :=
      if content_text.isEmpty then none
      else some (String.intercalate "\n" content_text),
    tool_calls := tool_calls,
    finish_reason := finishReasonMap stop_reason,
    usage := usage }

/-- `ClaudeCodeProvider._refresh_token`: re-read the token from the store
(`get_claude_code_token`, whose result is the `resolved` oracle); adopt it
and report True only when it is truthy and differs from the current one.
Returns (changed, token afterwards). -/
def providerRefreshToken (current : String) (resolved : Option String) :
    Bool × String :=
  match resolved with
  | none => (false, current)
  | some t => if t != "" && t != current then (true, t) else (false, current)

/-- The result of `resp.json()` on the messages endpoint: a parsed body,
or a JSONDecodeError caught by the outer `except` with this message. -/
inductive ChatJsonBody where
  | parsed (body : WireResponse)
  | unparsable (errMsg : String)

/-- Outcome of one `_send_request` call: a transport-level exception (with
its `str(e)`), or an HTTP response with status, `resp.text`, and the
`resp.json()` result. -/
inductive ChatHttpOutcome where
  | transportError (errMsg : String)
  | response (status : Nat) (text : String) (jsonBody : ChatJsonBody)

/-- The response built for a non-200 final status:
`"Error from Anthropic API (status): " + error_text[:500]` with finish
reason error. -/
def apiErrorResponse (status : Nat) (errText : String) : LLMResponse :=
  { content := some ("Error from Anthropic API (" ++ toString status ++ "): "
      ++ pyTruncate errText 500),
    finish_reason := "error" }

/-- The response built by the outer `except` handler:
`"Error calling Anthropic API: " + str(e)` with finish reason error. -/
def caughtExceptionResponse (errMsg : String) : LLMResponse :=
  { content := some ("Error calling Anthropic API: " ++ errMsg),
    finish_reason := "error" }

/-- Observable result of one `chat()` call: the returned response, how
many requests were sent to the messages endpoint, how many times
`_refresh_token` ran, and the provider's token afterwards. -/
structure ChatResult where
  response : LLMResponse
  requestsSent : Nat
  refreshCalls : Nat
  finalToken : String

/-- `ClaudeCodeProvider.chat` after the body is built: send once; on a 401
run `_refresh_token` and, only if it adopted a different token, send once
more; then a non-200 final status becomes an API-error response, a parsed
200 body goes through `_parse_response`, and any exception is caught.
`sendOutcomes n` is the oracle for the (n+1)-th `_send_request`. -/
def chat (oauth_token : String) (keychainToken : Option String)
    (sendOutcomes : Nat → ChatHttpOutcome) : ChatResult :=
  match sendOutcomes 0 with
  | ChatHttpOutcome.transportError e =>
    ⟨caughtExceptionResponse e, 1, 0, oauth_token⟩
  | ChatHttpOutcome.response status text jsonBody =>
    if status = 401 then
      let refreshed := providerRefreshToken oauth_token keychainToken
      if refreshed.1 then
        match sendOutcomes 1 with
        | ChatHttpOutcome.transportError e =>
          ⟨caughtExceptionResponse e, 2, 1, refreshed.2⟩
        | ChatHttpOutcome.response status2 text2 jsonBody2 =>
          if status2 ≠ 200 then
            ⟨apiErrorResponse status2 text2, 2, 1, refreshed.2⟩
          else
            match jsonBody2 with
            | ChatJsonBody.parsed body => ⟨parseResponse body, 2, 1, refreshed.2⟩
            | ChatJsonBody.unparsable e =>
              ⟨caughtExceptionResponse e, 2, 1, refreshed.2⟩
      else
        ⟨apiErrorResponse status text, 1, 1, oauth_token⟩
    else if status ≠ 200 then
      ⟨apiErrorResponse status text, 1, 0, oauth_token⟩
    else
      match jsonBody with
      | ChatJsonBody.parsed body => ⟨parseResponse body, 1, 0, oauth_token⟩
      | ChatJsonBody.unparsable e =>
        ⟨caughtExceptionResponse e, 1, 0, oauth_token⟩

/-- Whether a send outcome is an HTTP 401 response. -/
def statusIs401 : ChatHttpOutcome → Bool
  | ChatHttpOutcome.response status _ _ => status == 401
  | ChatHttpOutcome.transportError _ => false

/-- Specification-side view of the system parts: the string contents of
the system-role messages, in their original relative order (the spec's
"collected, in order, as additional system text blocks"). -/
def systemTexts (messages : List Message) : List String :=
  messages.filterMap (fun m =>
    if m.role = "system" then
      match m.content with
      | Json.str s => some s
      | _ => none
    else none)

/- ----------------------------------------------------------------
   Shared lemmas about the dict model
   ---------------------------------------------------------------- -/

theorem dictGet_map_replace (d : Dict) (k : String) (v : Json)
    (h : dictHasKey d k = true) :
    dictGet (d.map (fun p => if p.1 = k then (k, v) else p)) k = some v := by
  induction d with
  | nil => simp [dictHasKey] at h
  | cons p rest ih =>
    obtain ⟨k1, v1⟩ := p
    by_cases hk : k1 = k
    · simp only [List.map_cons]
      rw [if_pos hk]
      simp [dictGet]
    · have hrest : dictHasKey rest k = true := by
        simpa [dictHasKey, hk] using h
      simp only [List.map_cons]
      rw [if_neg hk]
      simp only [dictGet]
      rw [if_neg hk]
      exact ih hrest

theorem dictGet_append_self (d : Dict) (k : String) (v : Json)
    (h : dictHasKey d k = false) :
    dictGet (d ++ [(k, v)]) k = some v := by
  induction d with
  | nil => simp [dictGet]
  | cons p rest ih =>
    obtain ⟨k1, v1⟩ := p
    have hk : ¬ k1 = k := by
      intro hkk
      simp [dictHasKey, hkk] at h
    have hrest : dictHasKey rest k = false := by
      simpa [dictHasKey, hk] using h
    simp only [List.cons_append, dictGet]
    rw [if_neg hk]
    exact ih hrest

theorem dictGet_map_replace_ne (d : Dict) (k k2 : String) (v : Json)
    (h : k2 ≠ k) :
    dictGet (d.map (fun p => if p.1 = k then (k, v) else p)) k2
      = dictGet d k2 := by
  induction d with
  | nil => simp [dictGet]
  | cons p rest ih =>
    obtain ⟨k1, v1⟩ := p
    by_cases hpk : k1 = k
    · have hne : ¬ k = k2 := fun hkk => h hkk.symm
      have hne2 : ¬ k1 = k2 := by rw [hpk]; exact hne
      simp only [List.map_cons]
      rw [if_pos hpk]
      simp only [dictGet]
      rw [if_neg hne, if_neg hne2]
      exact ih
    · simp only [List.map_cons]
      rw [if_neg hpk]
      by_cases hpk2 : k1 = k2
      · simp [dictGet, hpk2]
      · simp only [dictGet]
        rw [if_neg hpk2, if_neg hpk2]
        exact ih

theorem dictGet_append_ne (d : Dict) (k k2 : String) (v : Json)
    (h : k2 ≠ k) :
    dictGet (d ++ [(k, v)]) k2 = dictGet d k2 := by
  induction d with
  | nil =>
    have hne : ¬ k = k2 := fun hkk => h hkk.symm
    simp [dictGet, hne]
  | cons p rest ih =>
    obtain ⟨k1, v1⟩ := p
    simp only [List.cons_append, dictGet]
    by_cases hpk2 : k1 = k2
    · rw [if_pos hpk2, if_pos hpk2]
    · rw [if_neg hpk2, if_neg hpk2]
      exact ih

/-- Setting a key makes it readable: `dictGet (dictSet d k v) k = some v`. -/
theorem dictGet_dictSet_self (d : Dict) (k : String) (v : Json) :
    dictGet (dictSet d k v) k = some v := by
  by_cases h : dictHasKey d k
  · simp only [dictSet, h, if_true]
    exact dictGet_map_replace d k v h
  · simp only [dictSet, eq_false_of_ne_true h, Bool.false_eq_true, if_false]
    exact dictGet_append_self d k v (eq_false_of_ne_true h)

/-- Setting one key leaves every other key unchanged. -/
theorem dictGet_dictSet_ne (d : Dict) (k k2 : String) (v : Json)
    (h : k2 ≠ k) :
    dictGet (dictSet d k v) k2 = dictGet d k2 := by
  by_cases hk : dictHasKey d k
  · simp only [dictSet, hk, if_true]
    exact dictGet_map_replace_ne d k k2 v h
  · simp only [dictSet, eq_false_of_ne_true hk, Bool.false_eq_true, if_false]
    exact dictGet_append_ne d k k2 v h

/-- Key membership agrees with lookup success. -/
theorem dictHasKey_eq_isSome (d : Dict) (k : String) :
    dictHasKey d k = (dictGet d k).isSome := by
  induction d with
  | nil => rfl
  | cons p rest ih =>
    obtain ⟨k1, v1⟩ := p
    by_cases hk : k1 = k
    · simp [dictHasKey, dictGet, hk]
    · simp [dictHasKey, dictGet, hk, ih]

/-- A dict in which a key is found is nonempty. -/
theorem dictGet_some_ne_nil (d : Dict) (k : String) (v : Json)
    (h : dictGet d k = some v) : d ≠ [] := by
  intro hnil
  rw [hnil] at h
  simp [dictGet] at h

/- ----------------------------------------------------------------
   Claim theorems
   ---------------------------------------------------------------- -/

/-- C8: for every credential document whose record holds a (truthy) access
token and an `expiresAt` more than 5 minutes after the current time,
`_extract_token` returns the stored access token, attempts no refresh HTTP
call, and performs no store write — whatever the refresh oracle would have
answered. -/
theorem claim_C8 (data oauth : Dict) (now e : Int) (t : String)
    (outcome : HttpResult)
    (hdoc : dictGet data "claudeAiOauth" = some (Json.obj oauth))
    (hexp : getExpiresAt oauth = Except.ok (some e))
    (hvalid : now + EXPIRY_BUFFER_MS < e)
    (hat : pyGet oauth "accessToken" = Json.str t)
    (htne : t ≠ "") :
    extractToken data now outcome = Except.ok ⟨Json.str t, false, []⟩ := by
  have hnotexp : isTokenExpired now (some e) = false := by
    simp only [isTokenExpired, decide_eq_false_iff_not]
    omega
  have htruthy : pyTruthy (pyGet oauth "accessToken") = true := by
    rw [hat]
    simpa [pyTruthy] using htne
  unfold extractToken
  rw [show pyGetD data "claudeAiOauth" (Json.obj []) = Json.obj oauth by
    simp [pyGetD, hdoc]]
  have ht2 : pyTruthy (Json.str t) = true := by
    simpa [pyTruthy] using htne
  simp only [hexp, hnotexp, Bool.false_eq_true, if_false, htruthy, if_true,
    hat, ht2]

/-- C8 witness: a concrete document with a token valid for another hour
resolves to the stored token with no refresh and no write. -/
theorem claim_C8_witness :
    extractToken
      [("claudeAiOauth", Json.obj
        [("accessToken", Json.str "tok-live"),
         ("refreshToken", Json.str "rt-1"),
         ("expiresAt", Json.num 7200000)])]
      1000000 HttpResult.failure
      = Except.ok ⟨Json.str "tok-live", false, []⟩ :=
  claim_C8
    [("claudeAiOauth", Json.obj
      [("accessToken", Json.str "tok-live"),
       ("refreshToken", Json.str "rt-1"),
       ("expiresAt", Json.num 7200000)])]
    [("accessToken", Json.str "tok-live"),
     ("refreshToken", Json.str "rt-1"),
     ("expiresAt", Json.num 7200000)]
    1000000 7200000 "tok-live" HttpResult.failure
    rfl rfl (by decide) rfl (by decide)

/-- C10: for every credential document with no (truthy) refresh token and
an absent or within-buffer `expiresAt`, `_extract_token` returns no token,
attempts no refresh HTTP call, and performs no store write — whatever the
refresh oracle would have answered. -/
theorem claim_C10 (data oauth : Dict) (now : Int) (ea : Option Int)
    (outcome : HttpResult)
    (hdoc : dictGet data "claudeAiOauth" = some (Json.obj oauth))
    (hexp : getExpiresAt oauth = Except.ok ea)
    (hexpired : isTokenExpired now ea = true)
    (hrt : pyTruthy (pyGet oauth "refreshToken") = false) :
    extractToken data now outcome = Except.ok ⟨Json.null, false, []⟩ := by
  unfold extractToken
  rw [show pyGetD data "claudeAiOauth" (Json.obj []) = Json.obj oauth by
    simp [pyGetD, hdoc]]
  simp only [hexp, hexpired, if_true, hrt, Bool.not_false, if_true]

/-- C10 witness: a concrete document with an expired token and no refresh
token resolves to no token with no HTTP call and no write. -/
theorem claim_C10_witness :
    extractToken
      [("claudeAiOauth", Json.obj
        [("accessToken", Json.str "tok-old"),
         ("expiresAt", Json.num 500)])]
      1000000 HttpResult.failure
      = Except.ok ⟨Json.null, false, []⟩ :=
  claim_C10
    [("claudeAiOauth", Json.obj
      [("accessToken", Json.str "tok-old"),
       ("expiresAt", Json.num 500)])]
    [("accessToken", Json.str "tok-old"),
     ("expiresAt", Json.num 500)]
    1000000 (some 500) HttpResult.failure
    rfl rfl (by decide) (by decide)

/-- C4: for every resolution attempt on an expired credential with a
refresh token in which the refresh HTTP call fails at the transport level
or returns a non-200 status, `_extract_token` returns no token and writes
nothing to the store (the stale document is left unmodified). -/
theorem claim_C4 (data oauth : Dict) (now : Int) (ea : Option Int)
    (outcome : HttpResult)
    (hdoc : dictGet data "claudeAiOauth" = some (Json.obj oauth))
    (hexp : getExpiresAt oauth = Except.ok ea)
    (hexpired : isTokenExpired now ea = true)
    (hrt : pyTruthy (pyGet oauth "refreshToken") = true)
    (hfail : outcome = HttpResult.failure
      ∨ ∃ st b, outcome = HttpResult.resp st b ∧ st ≠ 200) :
    extractToken data now outcome = Except.ok ⟨Json.null, true, []⟩ := by
  have hnone : refreshTokenWithHttpx outcome = none := by
    rcases hfail with hf | ⟨st, b, hout, hst⟩
    · rw [hf]; rfl
    · rw [hout]
      simp [refreshTokenWithHttpx, hst]
  unfold extractToken
  rw [show pyGetD data "claudeAiOauth" (Json.obj []) = Json.obj oauth by
    simp [pyGetD, hdoc]]
  simp only [hexp, hexpired, if_true, hrt, Bool.not_true, Bool.false_eq_true,
    if_false, hnone]

/-- C4 witness: a 503 from the token endpoint leaves the store untouched
and yields no token. -/
theorem claim_C4_witness :
    extractToken
      [("claudeAiOauth", Json.obj
        [("accessToken", Json.str "tok-old"),
         ("refreshToken", Json.str "rt-1"),
         ("expiresAt", Json.num 500)])]
      1000000 (HttpResult.resp 503 (some (Json.obj [])))
      = Except.ok ⟨Json.null, true, []⟩ :=
  claim_C4
    [("claudeAiOauth", Json.obj
      [("accessToken", Json.str "tok-old"),
       ("refreshToken", Json.str "rt-1"),
       ("expiresAt", Json.num 500)])]
    [("accessToken", Json.str "tok-old"),
     ("refreshToken", Json.str "rt-1"),
     ("expiresAt", Json.num 500)]
    1000000 (some 500) (HttpResult.resp 503 (some (Json.obj [])))
    rfl rfl (by decide) (by decide)
    (Or.inr ⟨503, some (Json.obj []), rfl, by decide⟩)

/-- C3: for every expired-or-absent-expiry credential document with a
refresh token, when the refresh endpoint answers 200 with a body holding a
(nonempty) `access_token`, the resolved token is that `access_token`; the
single document written back holds `accessToken` = the new token and
`expiresAt` = now + `expires_in`*1000 (3600 when `expires_in` is absent);
the prior `refreshToken` is kept when the body has no `refresh_token`; and
a `scope` string is split on whitespace into the stored `scopes` list. -/
theorem claim_C3 (data oauth ntd : Dict) (now : Int) (ea : Option Int)
    (t : String) (ein : Int)
    (hdoc : dictGet data "claudeAiOauth" = some (Json.obj oauth))
    (hexp : getExpiresAt oauth = Except.ok ea)
    (hexpired : isTokenExpired now ea = true)
    (hrt : pyTruthy (pyGet oauth "refreshToken") = true)
    (hat : dictGet ntd "access_token" = some (Json.str t))
    (htne : t ≠ "")
    (hein : expiresInVal ntd = Except.ok ein)
    (hscope : dictGet ntd "scope" = none
      ∨ ∃ s, dictGet ntd "scope" = some (Json.str s)) :
    ∃ oauthFinal : Dict,
      extractToken data now (HttpResult.resp 200 (some (Json.obj ntd)))
        = Except.ok ⟨Json.str t, true,
            [dictSet data "claudeAiOauth" (Json.obj oauthFinal)]⟩
      ∧ dictGet oauthFinal "accessToken" = some (Json.str t)
      ∧ dictGet oauthFinal "expiresAt" = some (Json.num (now + ein * 1000))
      ∧ (dictGet ntd "refresh_token" = none →
          dictGet oauthFinal "refreshToken" = some (pyGet oauth "refreshToken"))
      ∧ (∀ s, dictGet ntd "scope" = some (Json.str s) →
          dictGet oauthFinal "scopes"
            = some (Json.arr ((pySplitWs s).map Json.str)))
      ∧ (dictGet ntd "expires_in" = none → ein = 3600) := by
  have hntdne : ntd ≠ [] := dictGet_some_ne_nil ntd "access_token" _ hat
  have hempty : ntd.isEmpty = false := by
    cases ntd with
    | nil => exact absurd rfl hntdne
    | cons p rest => rfl
  have htruthyntd : pyTruthy (Json.obj ntd) = true := by
    simp [pyTruthy, hempty]
  have hrefresh :
      refreshTokenWithHttpx (HttpResult.resp 200 (some (Json.obj ntd)))
        = some (Json.obj ntd) := rfl
  have hpyat : pyGet ntd "access_token" = Json.str t := by
    simp [pyGet, hat]
  have ht2 : pyTruthy (Json.str t) = true := by
    simpa [pyTruthy] using htne
  have heindefault : dictGet ntd "expires_in" = none → ein = 3600 := by
    intro hno
    have : expiresInVal ntd = Except.ok 3600 := by
      simp [expiresInVal, pyGetD, hno]
    rw [this] at hein
    exact (Except.ok.injEq _ _).mp hein.symm
  rcases hscope with hs | ⟨s, hs⟩
  · -- no scope key in the refresh body
    have hkey : dictHasKey ntd "scope" = false := by
      rw [dictHasKey_eq_isSome, hs]
      rfl
    refine ⟨dictSet (dictSet (dictSet oauth "accessToken" (Json.str t))
      "refreshToken" (pyGetD ntd "refresh_token" (pyGet oauth "refreshToken")))
      "expiresAt" (Json.num (now + ein * 1000)), ?_, ?_, ?_, ?_, ?_,
      heindefault⟩
    · unfold extractToken
      rw [show pyGetD data "claudeAiOauth" (Json.obj []) = Json.obj oauth by
        simp [pyGetD, hdoc]]
      simp only [hexp, hexpired, if_true, hrt, Bool.not_true,
        Bool.false_eq_true, if_false, hrefresh, htruthyntd, hpyat, hein,
        hkey, ht2]
    · rw [dictGet_dictSet_ne _ _ _ _ (by decide)]
      rw [dictGet_dictSet_ne _ _ _ _ (by decide)]
      exact dictGet_dictSet_self _ _ _
    · exact dictGet_dictSet_self _ _ _
    · intro hno
      rw [dictGet_dictSet_ne _ _ _ _ (by decide)]
      rw [dictGet_dictSet_self _ _ _]
      simp [pyGetD, hno]
    · intro s hgs
      rw [hs] at hgs
      exact absurd hgs (by simp)
  · -- the refresh body carries a scope string
    have hkey : dictHasKey ntd "scope" = true := by
      rw [dictHasKey_eq_isSome, hs]
      rfl
    have hpyscope : pyGet ntd "scope" = Json.str s := by
      simp [pyGet, hs]
    refine ⟨dictSet (dictSet (dictSet (dictSet oauth "accessToken"
      (Json.str t)) "refreshToken"
      (pyGetD ntd "refresh_token" (pyGet oauth "refreshToken")))
      "expiresAt" (Json.num (now + ein * 1000)))
      "scopes" (Json.arr ((pySplitWs s).map Json.str)), ?_, ?_, ?_, ?_, ?_,
      heindefault⟩
    · unfold extractToken
      rw [show pyGetD data "claudeAiOauth" (Json.obj []) = Json.obj oauth by
        simp [pyGetD, hdoc]]
      simp only [hexp, hexpired, if_true, hrt, Bool.not_true,
        Bool.false_eq_true, if_false, hrefresh, htruthyntd, hpyat, hein,
        hkey, hpyscope, ht2]
    · rw [dictGet_dictSet_ne _ _ _ _ (by decide)]
      rw [dictGet_dictSet_ne _ _ _ _ (by decide)]
      rw [dictGet_dictSet_ne _ _ _ _ (by decide)]
      exact dictGet_dictSet_self _ _ _
    · rw [dictGet_dictSet_ne _ _ _ _ (by decide)]
      exact dictGet_dictSet_self _ _ _
    · intro hno
      rw [dictGet_dictSet_ne _ _ _ _ (by decide)]
      rw [dictGet_dictSet_ne _ _ _ _ (by decide)]
      rw [dictGet_dictSet_self _ _ _]
      simp [pyGetD, hno]
    · intro s2 hgs
      rw [hs] at hgs
      have hss : s = s2 := by
        cases hgs
        rfl
      rw [← hss]
      exact dictGet_dictSet_self _ _ _

/-- C3 witness: a concrete expired document refreshed by a 200 body with
access_token, expires_in 7200 and a scope string resolves to the new
token, and the written record has the refreshed expiry, the kept refresh
token, and the split scopes. -/
theorem claim_C3_witness :
    ∃ oauthFinal : Dict,
      extractToken
        [("claudeAiOauth", Json.obj
          [("accessToken", Json.str "tok-old"),
           ("refreshToken", Json.str "rt-1"),
           ("expiresAt", Json.num 500)])]
        1000000
        (HttpResult.resp 200 (some (Json.obj
          [("access_token", Json.str "tok-new"),
           ("expires_in", Json.num 7200),
           ("scope", Json.str "user:inference user:profile")])))
        = Except.ok ⟨Json.str "tok-new", true,
            [dictSet
              [("claudeAiOauth", Json.obj
                [("accessToken", Json.str "tok-old"),
                 ("refreshToken", Json.str "rt-1"),
                 ("expiresAt", Json.num 500)])]
              "claudeAiOauth" (Json.obj oauthFinal)]⟩
      ∧ dictGet oauthFinal "accessToken" = some (Json.str "tok-new")
      ∧ dictGet oauthFinal "expiresAt" = some (Json.num 8200000)
      ∧ (dictGet
          [("access_token", Json.str "tok-new"),
           ("expires_in", Json.num 7200),
           ("scope", Json.str "user:inference user:profile")]
          "refresh_token" = none →
          dictGet oauthFinal "refreshToken" = some (pyGet
            [("accessToken", Json.str "tok-old"),
             ("refreshToken", Json.str "rt-1"),
             ("expiresAt", Json.num 500)] "refreshToken"))
      ∧ (∀ s, dictGet
          [("access_token", Json.str "tok-new"),
           ("expires_in", Json.num 7200),
           ("scope", Json.str "user:inference user:profile")]
          "scope" = some (Json.str s) →
          dictGet oauthFinal "scopes"
            = some (Json.arr ((pySplitWs s).map Json.str)))
      ∧ (dictGet
          [("access_token", Json.str "tok-new"),
           ("expires_in", Json.num 7200),
           ("scope", Json.str "user:inference user:profile")]
          "expires_in" = none → (7200 : Int) = 3600) :=
  claim_C3
    [("claudeAiOauth", Json.obj
      [("accessToken", Json.str "tok-old"),
       ("refreshToken", Json.str "rt-1"),
       ("expiresAt", Json.num 500)])]
    [("accessToken", Json.str "tok-old"),
     ("refreshToken", Json.str "rt-1"),
     ("expiresAt", Json.num 500)]
    [("access_token", Json.str "tok-new"),
     ("expires_in", Json.num 7200),
     ("scope", Json.str "user:inference user:profile")]
    1000000 (some 500) "tok-new" 7200
    rfl rfl (by decide) (by decide) rfl (by decide) rfl
    (Or.inr ⟨"user:inference user:profile", rfl⟩)

/-- C5 counterexample: a 200 refresh response whose JSON body is the empty
object lacks `access_token`, yet `_extract_token` does NOT overwrite the
store: the empty dict is falsy in `if new_token_data:`, so the attempt is
treated as a failed refresh — no write occurs, refuting the claim as
universally stated. -/
theorem claim_C5_counterexample :
    extractToken
      [("claudeAiOauth", Json.obj
        [("accessToken", Json.str "tok-old"),
         ("refreshToken", Json.str "rt-1"),
         ("expiresAt", Json.num 500)])]
      1000000 (HttpResult.resp 200 (some (Json.obj [])))
      = Except.ok ⟨Json.null, true, []⟩ := rfl

/-- C5 amended: if a resolution attempt on an expired credential with a
refresh token receives a 200 refresh response whose JSON body is a
NON-EMPTY object lacking the `access_token` field (its `expires_in`, when
present, numeric; its `scope`, when present, a string), then
`_extract_token` returns no token but still overwrites the stored
document, setting `accessToken` to null and `expiresAt` to a fresh
now + expires_in*1000 value. -/
theorem claim_C5_amended (data oauth ntd : Dict) (now : Int)
    (ea : Option Int) (ein : Int)
    (hdoc : dictGet data "claudeAiOauth" = some (Json.obj oauth))
    (hexp : getExpiresAt oauth = Except.ok ea)
    (hexpired : isTokenExpired now ea = true)
    (hrt : pyTruthy (pyGet oauth "refreshToken") = true)
    (hntdne : ntd ≠ [])
    (hat : dictGet ntd "access_token" = none)
    (hein : expiresInVal ntd = Except.ok ein)
    (hscope : dictGet ntd "scope" = none
      ∨ ∃ s, dictGet ntd "scope" = some (Json.str s)) :
    ∃ oauthFinal : Dict,
      extractToken data now (HttpResult.resp 200 (some (Json.obj ntd)))
        = Except.ok ⟨Json.null, true,
            [dictSet data "claudeAiOauth" (Json.obj oauthFinal)]⟩
      ∧ dictGet oauthFinal "accessToken" = some Json.null
      ∧ dictGet oauthFinal "expiresAt" = some (Json.num (now + ein * 1000)) := by
  have hempty : ntd.isEmpty = false := by
    cases ntd with
    | nil => exact absurd rfl hntdne
    | cons p rest => rfl
  have htruthyntd : pyTruthy (Json.obj ntd) = true := by
    simp [pyTruthy, hempty]
  have hrefresh :
      refreshTokenWithHttpx (HttpResult.resp 200 (some (Json.obj ntd)))
        = some (Json.obj ntd) := rfl
  have hpyat : pyGet ntd "access_token" = Json.null := by
    simp [pyGet, hat]
  have hnulltruthy : pyTruthy Json.null = false := rfl
  rcases hscope with hs | ⟨s, hs⟩
  · have hkey : dictHasKey ntd "scope" = false := by
      rw [dictHasKey_eq_isSome, hs]
      rfl
    refine ⟨dictSet (dictSet (dictSet oauth "accessToken" Json.null)
      "refreshToken" (pyGetD ntd "refresh_token" (pyGet oauth "refreshToken")))
      "expiresAt" (Json.num (now + ein * 1000)), ?_, ?_, ?_⟩
    · unfold extractToken
      rw [show pyGetD data "claudeAiOauth" (Json.obj []) = Json.obj oauth by
        simp [pyGetD, hdoc]]
      simp only [hexp, hexpired, if_true, hrt, Bool.not_true,
        Bool.false_eq_true, if_false, hrefresh, htruthyntd, hpyat, hein,
        hkey, hnulltruthy]
    · rw [dictGet_dictSet_ne _ _ _ _ (by decide)]
      rw [dictGet_dictSet_ne _ _ _ _ (by decide)]
      exact dictGet_dictSet_self _ _ _
    · exact dictGet_dictSet_self _ _ _
  · have hkey : dictHasKey ntd "scope" = true := by
      rw [dictHasKey_eq_isSome, hs]
      rfl
    have hpyscope : pyGet ntd "scope" = Json.str s := by
      simp [pyGet, hs]
    refine ⟨dictSet (dictSet (dictSet (dictSet oauth "accessToken"
      Json.null) "refreshToken"
      (pyGetD ntd "refresh_token" (pyGet oauth "refreshToken")))
      "expiresAt" (Json.num (now + ein * 1000)))
      "scopes" (Json.arr ((pySplitWs s).map Json.str)), ?_, ?_, ?_⟩
    · unfold extractToken
      rw [show pyGetD data "claudeAiOauth" (Json.obj []) = Json.obj oauth by
        simp [pyGetD, hdoc]]
      simp only [hexp, hexpired, if_true, hrt, Bool.not_true,
        Bool.false_eq_true, if_false, hrefresh, htruthyntd, hpyat, hein,
        hkey, hpyscope, hnulltruthy]
    · rw [dictGet_dictSet_ne _ _ _ _ (by decide)]
      rw [dictGet_dictSet_ne _ _ _ _ (by decide)]
      rw [dictGet_dictSet_ne _ _ _ _ (by decide)]
      exact dictGet_dictSet_self _ _ _
    · rw [dictGet_dictSet_ne _ _ _ _ (by decide)]
      exact dictGet_dictSet_self _ _ _

/-- C5 amended witness: a 200 body with only expires_in overwrites the
stored record, nulling the access token, while resolution fails. -/
theorem claim_C5_amended_witness :
    ∃ oauthFinal : Dict,
      extractToken
        [("claudeAiOauth", Json.obj
          [("accessToken", Json.str "tok-old"),
           ("refreshToken", Json.str "rt-1"),
           ("expiresAt", Json.num 500)])]
        1000000
        (HttpResult.resp 200 (some (Json.obj [("expires_in", Json.num 60)])))
        = Except.ok ⟨Json.null, true,
            [dictSet
              [("claudeAiOauth", Json.obj
                [("accessToken", Json.str "tok-old"),
                 ("refreshToken", Json.str "rt-1"),
                 ("expiresAt", Json.num 500)])]
              "claudeAiOauth" (Json.obj oauthFinal)]⟩
      ∧ dictGet oauthFinal "accessToken" = some Json.null
      ∧ dictGet oauthFinal "expiresAt" = some (Json.num 1060000) :=
  claim_C5_amended
    [("claudeAiOauth", Json.obj
      [("accessToken", Json.str "tok-old"),
       ("refreshToken", Json.str "rt-1"),
       ("expiresAt", Json.num 500)])]
    [("accessToken", Json.str "tok-old"),
     ("refreshToken", Json.str "rt-1"),
     ("expiresAt", Json.num 500)]
    [("expires_in", Json.num 60)]
    1000000 (some 500) 60
    rfl rfl (by decide) (by decide) (List.cons_ne_nil _ _) rfl rfl
    (Or.inl rfl)

/-- The first component of the message loop collects exactly the
string-valued system-message contents, in order. -/
theorem buildMessagesLoop_fst (jsonLoads : String → Option Json)
    (messages : List Message) :
    (buildMessagesLoop jsonLoads messages).1 = systemTexts messages := by
  induction messages with
  | nil => rfl
  | cons m rest ih =>
    simp only [systemTexts] at ih ⊢
    simp only [buildMessagesLoop, List.filterMap_cons]
    by_cases hsys : m.role = "system"
    · cases hc : m.content <;> simp [hsys, hc, ih]
    · by_cases ht : m.role = "tool" <;> by_cases ha : m.role = "assistant" <;>
        simp [hsys, ht, ha, ih]

/-- C6: the wire request's system array always starts with the fixed
vendor identification block, followed by the system-role messages as
separate text blocks in their original order; in particular, the
"Be concise." / "Use metric units." scenario yields exactly three blocks
in that order. -/
theorem claim_C6 :
    (∀ (jsonLoads : String → Option Json) (messages : List Message)
        (tools : Option (List ToolFunctionDef)) (model : String)
        (max_tokens : Int) (temperature : Json),
      (buildBody jsonLoads messages tools model max_tokens temperature).system
        = SystemBlock.mk claudeCodeSystemPrefixText
            :: (systemTexts messages).map SystemBlock.mk)
    ∧ (buildBody (fun _ => none)
        [{ role := "system", content := Json.str "Be concise." },
         { role := "system", content := Json.str "Use metric units." }]
        none "claude-sonnet-4-5-20250929" 4096 Json.null).system
      = [SystemBlock.mk claudeCodeSystemPrefixText,
         SystemBlock.mk "Be concise.",
         SystemBlock.mk "Use metric units."] := by
  constructor
  · intro jsonLoads messages tools model max_tokens temperature
    simp [buildBody, buildMessagesLoop_fst]
  · rfl

/-- C7 counterexample: a generic tool call named "ReadFile" with object
arguments converts to a wire tool_use block that still reads "ReadFile",
but parsing that block back yields the name "read_file" — the forward and
backward allow-list maps do NOT compose to the identity on every name. -/
theorem claim_C7_counterexample :
    convertAssistantMsg (fun _ => none)
      { role := "assistant", content := Json.null,
        tool_calls := [⟨"call_1", ⟨"ReadFile", Json.obj [("x", Json.num 1)]⟩⟩] }
      = { role := "assistant",
          content := WireContent.blocks
            [ContentBlock.toolUse "call_1" "ReadFile"
              (Json.obj [("x", Json.num 1)])] }
    ∧ (parseResponse
        { content := [RespBlock.toolUse "call_1" "ReadFile"
            (some (Json.obj [("x", Json.num 1)]))],
          stop_reason := some "tool_use" }).tool_calls
      = [⟨"call_1", "read_file", Json.obj [("x", Json.num 1)]⟩]
    ∧ ("read_file" : String) ≠ "ReadFile" :=
  ⟨rfl, rfl, by decide⟩

/-- C7 amended: for every generic assistant message with one tool call
whose arguments are a structured object and whose name is not the
wire-vocabulary name "ReadFile", converting to wire format and parsing the
resulting tool_use block back yields a tool-call request with identical
name and identical arguments. -/
theorem claim_C7_amended (jsonLoads : String → Option Json)
    (id name : String) (fields : List (String × Json))
    (hname : name ≠ "ReadFile") :
    convertAssistantMsg jsonLoads
      { role := "assistant", content := Json.null,
        tool_calls := [⟨id, ⟨name, Json.obj fields⟩⟩] }
      = { role := "assistant",
          content := WireContent.blocks
            [ContentBlock.toolUse id (toolNameToApi name) (Json.obj fields)] }
    ∧ (parseResponse
        { content := [RespBlock.toolUse id (toolNameToApi name)
            (some (Json.obj fields))],
          stop_reason := some "tool_use" }).tool_calls
      = [⟨id, name, Json.obj fields⟩] := by
  have hroundtrip : toolNameFromApi (toolNameToApi name) = name := by
    by_cases h : name = "read_file"
    · rw [h]; rfl
    · simp [toolNameToApi, toolNameFromApi, h, hname]
  exact ⟨rfl, by simp [parseResponse, hroundtrip]⟩

/-- C7 amended witness: the tool name "get_weather" with arguments
x = 1 round-trips unchanged. -/
theorem claim_C7_amended_witness :
    convertAssistantMsg (fun _ => none)
      { role := "assistant", content := Json.null,
        tool_calls :=
          [⟨"call_9", ⟨"get_weather", Json.obj [("x", Json.num 1)]⟩⟩] }
      = { role := "assistant",
          content := WireContent.blocks
            [ContentBlock.toolUse "call_9" "get_weather"
              (Json.obj [("x", Json.num 1)])] }
    ∧ (parseResponse
        { content := [RespBlock.toolUse "call_9" "get_weather"
            (some (Json.obj [("x", Json.num 1)]))],
          stop_reason := some "tool_use" }).tool_calls
      = [⟨"call_9", "get_weather", Json.obj [("x", Json.num 1)]⟩] :=
  claim_C7_amended (fun _ => none) "call_9" "get_weather"
    [("x", Json.num 1)] (by decide)

/-- C9: a tool-call argument string that the JSON parser rejects does not
fail the conversion: the tool_use block's input becomes the object with
the single key "raw" holding the original string, and the wire message is
otherwise built normally. -/
theorem claim_C9 (jsonLoads : String → Option Json) (s id name : String)
    (content : Json)
    (hparse : jsonLoads s = none) :
    convertAssistantMsg jsonLoads
      { role := "assistant", content := content,
        tool_calls := [⟨id, ⟨name, Json.str s⟩⟩] }
      = { role := "assistant",
          content := WireContent.blocks
            ((if pyTruthy content then [ContentBlock.text content] else [])
              ++ [ContentBlock.toolUse id (toolNameToApi name)
                  (Json.obj [("raw", Json.str s)])]) } := by
  unfold convertAssistantMsg
  simp only [List.map_cons, List.map_nil, hparse]
  have hne : ((if pyTruthy content then [ContentBlock.text content] else [])
      ++ [ContentBlock.toolUse id (toolNameToApi name)
          (Json.obj [("raw", Json.str s)])]).isEmpty = false := by
    by_cases h : pyTruthy content <;> simp [h]
  simp [hne]

/-- C9 witness: the argument string "not json" is wrapped as
raw = "not json" and the request block is built. -/
theorem claim_C9_witness :
    convertAssistantMsg (fun _ => none)
      { role := "assistant", content := Json.null,
        tool_calls := [⟨"call_2", ⟨"exec_tool", Json.str "not json"⟩⟩] }
      = { role := "assistant",
          content := WireContent.blocks
            [ContentBlock.toolUse "call_2" "exec_tool"
              (Json.obj [("raw", Json.str "not json")])] } :=
  claim_C9 (fun _ => none) "not json" "call_2" "exec_tool" Json.null rfl

/-- C1: every chat() call sends at most two requests; a 401 on the first
request triggers exactly one token re-resolution (and a non-401 first
response triggers none and no retry); a second request happens only after
a first 401 with a re-resolved token that differs from the one just used;
and a second 401 on the retry yields a response with finish reason error,
with no further request. -/
theorem claim_C1 (oauth_token : String) (keychainToken : Option String)
    (sendOutcomes : Nat → ChatHttpOutcome) :
    (chat oauth_token keychainToken sendOutcomes).requestsSent ≤ 2
    ∧ (statusIs401 (sendOutcomes 0) = true →
        (chat oauth_token keychainToken sendOutcomes).refreshCalls = 1)
    ∧ (statusIs401 (sendOutcomes 0) = false →
        (chat oauth_token keychainToken sendOutcomes).refreshCalls = 0
        ∧ (chat oauth_token keychainToken sendOutcomes).requestsSent = 1)
    ∧ ((chat oauth_token keychainToken sendOutcomes).requestsSent = 2 →
        statusIs401 (sendOutcomes 0) = true
        ∧ (providerRefreshToken oauth_token keychainToken).1 = true)
    ∧ (statusIs401 (sendOutcomes 0) = true →
        (providerRefreshToken oauth_token keychainToken).1 = true →
        statusIs401 (sendOutcomes 1) = true →
        (chat oauth_token keychainToken sendOutcomes).response.finish_reason
          = "error"
        ∧ (chat oauth_token keychainToken sendOutcomes).requestsSent = 2) := by
  cases h0 : sendOutcomes 0 with
  | transportError e => simp [chat, h0, statusIs401]
  | response status text jsonBody =>
    by_cases hst : status = 401
    · subst hst
      by_cases hch : (providerRefreshToken oauth_token keychainToken).1 = true
      · cases h1 : sendOutcomes 1 with
        | transportError e2 =>
          simp [chat, h0, h1, hch, statusIs401, caughtExceptionResponse]
        | response status2 text2 jsonBody2 =>
          by_cases h200 : status2 = 200
          · subst h200
            cases jsonBody2 <;>
              simp [chat, h0, h1, hch, statusIs401]
          · simp [chat, h0, h1, hch, h200, statusIs401, apiErrorResponse]
      · simp [chat, h0, hch, statusIs401, apiErrorResponse]
    · by_cases h200 : status = 200
      · subst h200
        cases jsonBody <;> simp [chat, h0, hst, statusIs401]
      · simp [chat, h0, hst, h200, statusIs401]

/-- C1 witness: with a first 401, a differing re-resolved token, and a 401
again on the retry, the call returns finish reason error after exactly two
requests. -/
theorem claim_C1_witness :
    (chat "old-token" (some "new-token")
      (fun _ => ChatHttpOutcome.response 401 "unauthorized"
        (ChatJsonBody.unparsable "x"))).response.finish_reason = "error"
    ∧ (chat "old-token" (some "new-token")
        (fun _ => ChatHttpOutcome.response 401 "unauthorized"
          (ChatJsonBody.unparsable "x"))).requestsSent = 2 :=
  (claim_C1 "old-token" (some "new-token")
    (fun _ => ChatHttpOutcome.response 401 "unauthorized"
      (ChatJsonBody.unparsable "x"))).2.2.2.2 rfl (by decide) rfl

/-- C2: chat() is a total function of its oracles (no exception escapes):
a transport failure on either request, a non-200/non-401 first status, a
non-200 retry status, and an unparsable 200 body all come back as ordinary
responses with finish reason error; the non-200 response carries the
vendor error body truncated to at most 500 characters. -/
theorem claim_C2 (oauth_token : String) (keychainToken : Option String)
    (sendOutcomes : Nat → ChatHttpOutcome) (e e2 text text2 : String)
    (status status2 : Nat) (jsonBody jsonBody2 : ChatJsonBody) :
    ((apiErrorResponse status text).finish_reason = "error"
      ∧ (caughtExceptionResponse e).finish_reason = "error"
      ∧ (apiErrorResponse status text).content
          = some ("Error from Anthropic API (" ++ toString status ++ "): "
              ++ pyTruncate text 500)
      ∧ (pyTruncate text 500).length ≤ 500)
    ∧ (sendOutcomes 0 = ChatHttpOutcome.transportError e →
        (chat oauth_token keychainToken sendOutcomes).response
          = caughtExceptionResponse e)
    ∧ (sendOutcomes 0 = ChatHttpOutcome.response status text jsonBody →
        status ≠ 200 → status ≠ 401 →
        (chat oauth_token keychainToken sendOutcomes).response
          = apiErrorResponse status text)
    ∧ (sendOutcomes 0 = ChatHttpOutcome.response 401 text jsonBody →
        (providerRefreshToken oauth_token keychainToken).1 = true →
        sendOutcomes 1 = ChatHttpOutcome.transportError e2 →
        (chat oauth_token keychainToken sendOutcomes).response
          = caughtExceptionResponse e2)
    ∧ (sendOutcomes 0 = ChatHttpOutcome.response 401 text jsonBody →
        (providerRefreshToken oauth_token keychainToken).1 = true →
        sendOutcomes 1 = ChatHttpOutcome.response status2 text2 jsonBody2 →
        status2 ≠ 200 →
        (chat oauth_token keychainToken sendOutcomes).response
          = apiErrorResponse status2 text2)
    ∧ (sendOutcomes 0 = ChatHttpOutcome.response 200 text
          (ChatJsonBody.unparsable e) →
        (chat oauth_token keychainToken sendOutcomes).response
          = caughtExceptionResponse e) := by
  refine ⟨⟨rfl, rfl, rfl, ?_⟩, ?_, ?_, ?_, ?_, ?_⟩
  · have hlen : (pyTruncate text 500).length = (text.data.take 500).length :=
      rfl
    rw [hlen, List.length_take]
    exact min_le_left _ _
  · intro h0
    simp [chat, h0]
  · intro h0 h200 h401
    simp [chat, h0, h200, h401]
  · intro h0 hch h1
    simp [chat, h0, hch, h1]
  · intro h0 hch h1 h200
    simp [chat, h0, hch, h1, h200]
  · intro h0
    simp [chat, h0]

/-- C2 witness: a 500 with body "boom" is returned as an error-finish
response carrying the truncated body, not raised. -/
theorem claim_C2_witness :
    (chat "tok" none
      (fun _ => ChatHttpOutcome.response 500 "boom"
        (ChatJsonBody.unparsable "x"))).response
      = apiErrorResponse 500 "boom"
    ∧ (apiErrorResponse 500 "boom").finish_reason = "error" :=
  ⟨(claim_C2 "tok" none
      (fun _ => ChatHttpOutcome.response 500 "boom"
        (ChatJsonBody.unparsable "x"))
      "e" "e2" "boom" "t2" 500 200
      (ChatJsonBody.unparsable "x") (ChatJsonBody.unparsable "y")).2.2.1
      rfl (by decide) (by decide),
   (claim_C2 "tok" none
      (fun _ => ChatHttpOutcome.response 500 "boom"
        (ChatJsonBody.unparsable "x"))
      "e" "e2" "boom" "t2" 500 200
      (ChatJsonBody.unparsable "x") (ChatJsonBody.unparsable "y")).1.1⟩

end Nanobot
